import Mathlib

/-!
Shallow embedding of `app/main.py` from the manus-mcp repository.

The repository exposes two MCP tools, `hello_world` and `google_search`.
`google_search` resolves an omitted `num_results` from the module-level
configuration (read from the environment at startup), dispatches the blocking
`googlesearch.search` call to a worker thread, and converts any exception
raised by that call into a single-element list of the form
`["Error performing search: <message>"]`.

The third-party search provider (`googlesearch.search`) is external to the
repository, so it is modelled as a parameter: a function from the arguments
the code passes it (`query`, `num_results`, `user_agent`) to either a list of
links (`Except.ok`) or a raised exception, whose `str(e)` rendering is the
carried string (`Except.error`).
-/

namespace ManusMCP

/-- Arguments that `google_search` passes to the underlying provider call
`search(query, num_results=num_results, user_agent=GOOGLE_SEARCH_USER_AGENT)`,
mapped to either the produced list of links or a raised exception rendered by
`str(e)`. -/
abbrev Provider := String → Int → String → Except String (List String)

/-- Module-level configuration of `app/main.py`: the values of the globals
`GOOGLE_SEARCH_MAX_RESULTS` and `GOOGLE_SEARCH_USER_AGENT` (lines 21-22). -/
structure Config where
  maxResults : Int
  userAgent : String
deriving Repr, DecidableEq

/-- Decimal value of a digit list: `none` as soon as a non-digit appears. -/
def digitsValAux : List Char → Nat → Option Nat
  | [], acc => some acc
  | c :: cs, acc =>
    if c.isDigit then digitsValAux cs (acc * 10 + (c.toNat - 48)) else none

/-- Decimal value of a non-empty digit list. -/
def digitsVal (cs : List Char) : Option Nat :=
  if cs.isEmpty then none else digitsValAux cs 0

/-- Model of Python `int(s)` restricted to an optional sign followed by decimal
digits; `none` models the `ValueError` raised on other inputs. -/
def pyInt (s : String) : Option Int :=
  match s.data with
  | '-' :: rest => (digitsVal rest).map (fun n => -(n : Int))
  | '+' :: rest => (digitsVal rest).map (fun n => (n : Int))
  | cs => (digitsVal cs).map (fun n => (n : Int))

/-- Line 22: `GOOGLE_SEARCH_MAX_RESULTS = int(os.getenv("GOOGLE_SEARCH_MAX_RESULTS", "10"))`.
The argument is the environment lookup result (`none` when the variable is unset). -/
def GOOGLE_SEARCH_MAX_RESULTS (env : Option String) : Option Int :=
  pyInt (env.getD "10")

/-- Line 21: `GOOGLE_SEARCH_USER_AGENT = os.getenv("GOOGLE_SEARCH_USER_AGENT", "Mozilla/5.0")`. -/
def GOOGLE_SEARCH_USER_AGENT (env : Option String) : String :=
  env.getD "Mozilla/5.0"

/-- Module initialisation of the two search-related globals from the environment.
It fails (models a `ValueError` at import time) when the max-results variable is
set to a string `int` rejects. -/
def configFromEnv (maxEnv uaEnv : Option String) : Option Config :=
  (GOOGLE_SEARCH_MAX_RESULTS maxEnv).map
    (fun m => { maxResults := m, userAgent := GOOGLE_SEARCH_USER_AGENT uaEnv })

/-- Line 78: the string built by `f"Error performing search: {str(e)}"`. -/
def errorMessage (e : String) : String :=
  "Error performing search: " ++ e

/-- Lines 58-59: `if num_results is None: num_results = GOOGLE_SEARCH_MAX_RESULTS`.
The value actually passed to the provider call. -/
def resolvedCount (cfg : Config) (num_results : Option Int) : Int :=
  match num_results with
  | none => cfg.maxResults
  | some k => k

/-- Lines 44-78: the `google_search` tool. `num_results = None` (here `none`)
is replaced by the global `GOOGLE_SEARCH_MAX_RESULTS`; the provider is called
once with `query`, the resolved count and the global user agent; on success the
provider links are returned as-is, and any exception `e` is caught and turned
into `[f"Error performing search: {str(e)}"]`. -/
def google_search (provider : Provider) (cfg : Config)
    (query : String) (num_results : Option Int) : List String :=
  match provider query (resolvedCount cfg num_results) cfg.userAgent with
  | Except.ok links => links
  | Except.error e => [errorMessage e]

/-- Lines 65-73 without the surrounding `try`/`except`: the body of the `try`
block as a computation in the exception monad. -/
def google_search_body (provider : Provider) (cfg : Config)
    (query : String) (num_results : Option Int) : Except String (List String) := do
  let links ← provider query (resolvedCount cfg num_results) cfg.userAgent
  pure links

/-- Lines 65-78 viewed from the caller in the exception monad: the `try` body
with the `except Exception` handler installed.  An `Except.error` outcome here
would model an exception propagating out of the tool to its caller. -/
def google_searchExc (provider : Provider) (cfg : Config)
    (query : String) (num_results : Option Int) : Except String (List String) :=
  tryCatch (google_search_body provider cfg query num_results)
    (fun e => pure [errorMessage e])

/-- Lines 31-40: the `hello_world` tool, returning
`f"Hello, {name}! Welcome to Manus MCP."`. -/
def hello_world (name : String) : String :=
  "Hello, " ++ name ++ "! Welcome to Manus MCP."

/-- Line 32: the default value of the `name` parameter of `hello_world`,
substituted by Python when the argument is omitted. -/
def hello_world_default_name : String :=
  "World"

/-- One call made to the underlying provider: the concrete arguments the code
hands to `search(...)` on lines 68-72. -/
structure ProviderCall where
  query : String
  num_results : Int
  user_agent : String
deriving Repr, DecidableEq

/-- Log of provider calls made so far, in order. -/
abbrev Trace := List ProviderCall

/-- Outcome oracle for the instrumented semantics: the result of the k-th
provider call (counted from 0), as a function of the arguments passed. -/
abbrev Oracle := Nat → String → Int → String → Except String (List String)

/-- Lines 44-78 again, instrumented: each provider call appends its exact
argument triple to the trace, and its outcome is drawn from the oracle at the
current call index.  Control flow is the source control flow: resolve the
default, call the provider once inside `try`, return its links or the
single-element error list. -/
def google_search_traced (oracle : Oracle) (cfg : Config)
    (query : String) (num_results : Option Int) (t : Trace) :
    List String × Trace :=
  let n := resolvedCount cfg num_results
  let t2 := t ++ [⟨query, n, cfg.userAgent⟩]
  match oracle t.length query n cfg.userAgent with
  | Except.ok links => (links, t2)
  | Except.error e => ([errorMessage e], t2)

/-- Lines 44-78 with the module-level configuration threaded as mutable
process state: the body only reads `GOOGLE_SEARCH_MAX_RESULTS` (line 59) and
`GOOGLE_SEARCH_USER_AGENT` (line 71); `num_results = GOOGLE_SEARCH_MAX_RESULTS`
rebinds the call-local parameter, not the global. -/
def google_search_global (provider : Provider)
    (query : String) (num_results : Option Int) (g : Config) :
    List String × Config :=
  match provider query (resolvedCount g num_results) g.userAgent with
  | Except.ok links => (links, g)
  | Except.error e => ([errorMessage e], g)

/-- Lines 31-40 with the module-level configuration threaded as mutable
process state: `hello_world` never touches the search globals. -/
def hello_world_global (name : String) (g : Config) : String × Config :=
  (hello_world name, g)

/-- Configuration obtained when neither environment variable is set:
max results 10, user agent "Mozilla/5.0". -/
def defaultCfg : Config :=
  { maxResults := 10, userAgent := "Mozilla/5.0" }

/-- Concrete provider that always raises, with `str(e) = "boom"`. -/
def raisingProvider : Provider :=
  fun _ _ _ => Except.error "boom"

/-- Concrete provider that returns two fixed links regardless of the
`num_results` argument it receives. -/
def twoLinkProvider : Provider :=
  fun _ _ _ => Except.ok ["https://a.com", "https://b.com"]

/-- Oracle version of `twoLinkProvider`, for the instrumented semantics. -/
def twoLinkOracle : Oracle :=
  fun _ _ _ _ => Except.ok ["https://a.com", "https://b.com"]

/-- Decomposing the error prefix: the message header of line 78 is the
substring "Error performing search" followed by ": ". -/
theorem errorHeader_data :
    ("Error performing search: ").data = "Error performing search".data ++ ": ".data := by
  decide

/-- C1: if the provider raises any exception, `google_search` returns a list
of length exactly 1 whose single element contains the literal substring
"Error performing search". -/
theorem google_search_error_shape (provider : Provider) (cfg : Config)
    (query : String) (num_results : Option Int) (e : String)
    (h : provider query (resolvedCount cfg num_results) cfg.userAgent = Except.error e) :
    (google_search provider cfg query num_results).length = 1 ∧
    ∀ m ∈ google_search provider cfg query num_results,
      ∃ s t, m.data = s ++ "Error performing search".data ++ t := by
  unfold google_search
  rw [h]
  refine ⟨rfl, ?_⟩
  intro m hm
  rw [List.mem_singleton] at hm
  subst hm
  refine ⟨[], ": ".data ++ e.data, ?_⟩
  show ("Error performing search: " ++ e).data = _
  rw [String.data_append, errorHeader_data]
  simp

/-- Evaluation of C1 at a provider that raises with message "boom". -/
theorem google_search_error_shape_spec :
    raisingProvider "q" (resolvedCount defaultCfg (some 10)) defaultCfg.userAgent =
      Except.error "boom" ∧
    ((google_search raisingProvider defaultCfg "q" (some 10)).length = 1 ∧
     ∀ m ∈ google_search raisingProvider defaultCfg "q" (some 10),
       ∃ s t, m.data = s ++ "Error performing search".data ++ t) :=
  ⟨rfl, google_search_error_shape raisingProvider defaultCfg "q" (some 10) "boom" rfl⟩

/-- C2: at its boundary `google_search` never propagates a provider exception:
the tool call in the exception monad always yields `Except.ok` of the pure
result list, for every provider and every input. -/
theorem google_search_total (provider : Provider) (cfg : Config)
    (query : String) (num_results : Option Int) :
    google_searchExc provider cfg query num_results =
      Except.ok (google_search provider cfg query num_results) := by
  unfold google_searchExc google_search_body google_search
  cases h : provider query (resolvedCount cfg num_results) cfg.userAgent <;>
    simp [h, tryCatch, tryCatchThe, MonadExceptOf.tryCatch, Except.tryCatch,
      pure, Except.pure, bind, Except.bind]

/-- C3 as stated is false: the invoker performs no truncation, so a provider
that ignores `num_results` makes a successful invocation with `num_results = 1`
return 2 links. -/
theorem google_search_length_cex :
    ¬ ((google_search twoLinkProvider defaultCfg "weather today" (some 1)).length ≤ 1) := by
  decide

/-- C3 (amended): the invoker adds nothing, so whenever the provider itself
returns at most N links, a successful invocation with `num_results = N`
returns a sequence of length at most N. -/
theorem google_search_length_le (provider : Provider) (cfg : Config)
    (query : String) (n : Int) (links : List String)
    (hok : provider query (resolvedCount cfg (some n)) cfg.userAgent = Except.ok links)
    (hlen : (links.length : Int) ≤ n) :
    ((google_search provider cfg query (some n)).length : Int) ≤ n := by
  unfold google_search
  rw [hok]
  exact hlen

/-- Evaluation of the amended C3 at a provider returning 2 links for N = 5. -/
theorem google_search_length_le_spec :
    twoLinkProvider "q" (resolvedCount defaultCfg (some 5)) defaultCfg.userAgent =
      Except.ok ["https://a.com", "https://b.com"] ∧
    ((["https://a.com", "https://b.com"].length : Int) ≤ 5) ∧
    ((google_search twoLinkProvider defaultCfg "q" (some 5)).length : Int) ≤ 5 :=
  ⟨rfl, by decide,
   google_search_length_le twoLinkProvider defaultCfg "q" 5
     ["https://a.com", "https://b.com"] rfl (by decide)⟩

/-- C4: with `num_results` omitted (`none`), `google_search` behaves exactly
as if called with the configured process-wide maximum, and when the
environment variable is unset that maximum is 10. -/
theorem google_search_default_limit (provider : Provider)
    (maxEnv uaEnv : Option String) (cfg : Config)
    (h : configFromEnv maxEnv uaEnv = some cfg) (query : String) :
    google_search provider cfg query none =
      google_search provider cfg query (some cfg.maxResults) ∧
    (maxEnv = none → cfg.maxResults = 10) := by
  constructor
  · unfold google_search resolvedCount
    rfl
  · intro he
    subst he
    have h10 : GOOGLE_SEARCH_MAX_RESULTS none = some 10 := by decide
    unfold configFromEnv at h
    rw [h10] at h
    have h2 : (some (⟨10, GOOGLE_SEARCH_USER_AGENT uaEnv⟩ : Config)) = some cfg := h
    rw [Option.some.injEq] at h2
    rw [← h2]

/-- Evaluation of C4 with an empty environment. -/
theorem google_search_default_limit_spec :
    configFromEnv none none = some defaultCfg ∧
    (google_search twoLinkProvider defaultCfg "q" none =
       google_search twoLinkProvider defaultCfg "q" (some defaultCfg.maxResults) ∧
     ((none : Option String) = none → defaultCfg.maxResults = 10)) :=
  ⟨by decide, google_search_default_limit twoLinkProvider none none defaultCfg (by decide) "q"⟩

/-- C5: on a successful provider call, `google_search` returns exactly the
provider's list of links, unchanged and in the same order. -/
theorem google_search_preserves_links (provider : Provider) (cfg : Config)
    (query : String) (num_results : Option Int) (links : List String)
    (h : provider query (resolvedCount cfg num_results) cfg.userAgent = Except.ok links) :
    google_search provider cfg query num_results = links := by
  unfold google_search
  rw [h]

/-- Evaluation of C5 at the two-link provider. -/
theorem google_search_preserves_links_spec :
    twoLinkProvider "news" (resolvedCount defaultCfg none) defaultCfg.userAgent =
      Except.ok ["https://a.com", "https://b.com"] ∧
    google_search twoLinkProvider defaultCfg "news" none =
      ["https://a.com", "https://b.com"] :=
  ⟨rfl, google_search_preserves_links twoLinkProvider defaultCfg "news" none
    ["https://a.com", "https://b.com"] rfl⟩

/-- C6: every invocation performs exactly one provider call — the trace grows
by exactly one entry, on success and on failure alike — and the result is
determined by that single call's outcome. -/
theorem google_search_calls_once (oracle : Oracle) (cfg : Config)
    (query : String) (num_results : Option Int) (t : Trace) :
    (google_search_traced oracle cfg query num_results t).2.length = t.length + 1 ∧
    (google_search_traced oracle cfg query num_results t).1 =
      google_search (oracle t.length) cfg query num_results := by
  unfold google_search_traced google_search
  cases h : oracle t.length query (resolvedCount cfg num_results) cfg.userAgent <;>
    simp [h]

/-- C7: no input validation — an empty query, and a zero or negative
`num_results`, reach the provider unchanged as the arguments of the single
recorded call. -/
theorem google_search_no_validation (oracle : Oracle) (cfg : Config)
    (query : String) (n : Int) (_h : query = "" ∨ n ≤ 0) :
    (google_search_traced oracle cfg query (some n) []).2 =
      [⟨query, n, cfg.userAgent⟩] := by
  unfold google_search_traced resolvedCount
  cases h2 : oracle 0 query n cfg.userAgent <;> simp [h2]

/-- Evaluation of C7 at the empty query with `num_results = 0`. -/
theorem google_search_no_validation_spec :
    ("" = "" ∨ (0 : Int) ≤ 0) ∧
    (google_search_traced twoLinkOracle defaultCfg "" (some 0) []).2 =
      [⟨"", 0, defaultCfg.userAgent⟩] :=
  ⟨Or.inl rfl,
   google_search_no_validation twoLinkOracle defaultCfg "" 0 (Or.inl rfl)⟩

/-- C9: `hello_world` returns exactly "Hello, " ++ name ++ "! Welcome to
Manus MCP.", and the omitted-argument default "World" yields
"Hello, World! Welcome to Manus MCP.". -/
theorem hello_world_greeting (name : String) :
    hello_world name = "Hello, " ++ name ++ "! Welcome to Manus MCP." ∧
    hello_world hello_world_default_name = "Hello, World! Welcome to Manus MCP." :=
  ⟨rfl, by decide⟩

/-- C10: neither tool mutates the process-wide configuration — the globals
`GOOGLE_SEARCH_MAX_RESULTS` and `GOOGLE_SEARCH_USER_AGENT` are unchanged by
every call, and the state-threaded `google_search` computes the same result as
the pure one. -/
theorem tools_preserve_config (provider : Provider) (query : String)
    (num_results : Option Int) (name : String) (g : Config) :
    (google_search_global provider query num_results g).2 = g ∧
    (hello_world_global name g).2 = g ∧
    (google_search_global provider query num_results g).1 =
      google_search provider g query num_results := by
  unfold google_search_global hello_world_global google_search
  cases provider query (resolvedCount g num_results) g.userAgent <;> simp

end ManusMCP
